import Mathlib

/-
Verification of the YouTube video download/upload pipeline.

The repository contains two largely redundant implementations:
  * `src/youtube_manager.py` together with `utils/validators.py` and
    `config/config.py` (modelled in namespace `Ym`), and
  * the `app/` package: `app/core/processor.py`, `app/core/downloader.py`,
    `app/services/google_sheets.py`, `app/services/google_drive.py`,
    `app/utils/validators.py`, `app/utils/helpers.py` (namespace `App`).

Strings are modelled as `List Char` in the character-level functions and as
`String` in the pipeline.  External collaborators (yt-dlp, Google Drive,
Google Sheets, the local filesystem) are modelled as an oracle `World`
structure plus an explicit state `PState` carrying the simulated filesystem
(`files`, a list of path/size pairs), the tracking sheet (`sheet`, list of
rows, the header row included) and a trace of collaborator-call events.

Namespace `Py` models the exact behaviour of the Python library functions
the source calls: `str.strip`, `re.match` with an anchored `^...$` pattern
(whose `$` also matches just before one trailing newline),
`urllib.parse.urlparse` (restricted to URLs without userinfo/port edge
cases beyond splitting on `@` and `:`), `urllib.parse.parse_qs` (which
percent-decodes values), and `os.path.splitext`.
-/

namespace Py

/-- Characters removed by Python `str.strip()` with no argument (the ASCII
whitespace subset; the source never feeds other Unicode whitespace). -/
def isPyWs (c : Char) : Bool :=
  c == ' ' || c == '\t' || c == '\n' || c == '\x0b' || c == '\x0c' || c == '\r'

def lstripP (p : Char → Bool) (l : List Char) : List Char := l.dropWhile p

def rstripP (p : Char → Bool) (l : List Char) : List Char :=
  (l.reverse.dropWhile p).reverse

def stripP (p : Char → Bool) (l : List Char) : List Char := rstripP p (lstripP p l)

def stripWs (l : List Char) : List Char := stripP isPyWs l

/-- Character class `[A-Za-z0-9_-]`. -/
def isIdChar (c : Char) : Bool :=
  decide ((97 ≤ c.toNat ∧ c.toNat ≤ 122) ∨ (65 ≤ c.toNat ∧ c.toNat ≤ 90) ∨
    (48 ≤ c.toNat ∧ c.toNat ≤ 57) ∨ c = '_' ∨ c = '-')

/-- Exactly 11 characters of the class. -/
def fullMatch11 (l : List Char) : Bool :=
  l.length == 11 && l.all isIdChar

/-- Python `re.match(r'^[A-Za-z0-9_-]{11}$', s)` truthiness.  Without
`re.MULTILINE`, `$` matches at the end of the string or just before a
newline at the end, so a 12-character string whose last character is a
newline also matches. -/
def reMatch11 (l : List Char) : Bool :=
  fullMatch11 l ||
    (l.length == 12 && (l.take 11).all isIdChar && l.getLast? == some '\n')

def hexDigit (c : Char) : Option Nat :=
  if 48 ≤ c.toNat ∧ c.toNat ≤ 57 then some (c.toNat - 48)
  else if 65 ≤ c.toNat ∧ c.toNat ≤ 70 then some (c.toNat - 55)
  else if 97 ≤ c.toNat ∧ c.toNat ≤ 102 then some (c.toNat - 87)
  else none

/-- Percent-decoding as performed by `urllib.parse.unquote`.  Decoded bytes
are mapped directly to code points; only ASCII sequences occur in the
concrete inputs considered here. -/
def pctDecode : List Char → List Char
  | [] => []
  | '%' :: a :: b :: rest =>
    match hexDigit a, hexDigit b with
    | some x, some y => Char.ofNat (16 * x + y) :: pctDecode rest
    | _, _ => '%' :: pctDecode (a :: b :: rest)
  | c :: rest => c :: pctDecode rest

/-- `urllib.parse.unquote_plus`: plus signs become spaces, then percent
escapes are decoded. -/
def unquotePlus (l : List Char) : List Char :=
  pctDecode (l.map fun c => if c = '+' then ' ' else c)

/-- Python `str.split(sep)` for a single-character separator. -/
def splitOnChar (sep : Char) (l : List Char) : List (List Char) :=
  l.foldr
    (fun c acc =>
      match acc with
      | [] => [[c]]
      | cur :: rest => if c = sep then [] :: cur :: rest else (c :: cur) :: rest)
    [[]]

/-- Index of the first occurrence of `m` as a contiguous sublist of `l`. -/
def findSub (m l : List Char) : Option Nat :=
  (List.range (l.length + 1)).find? fun i => m.isPrefixOf (l.drop i)

/-- The fields of `urllib.parse.urlparse` the validators read. -/
structure UrlParts where
  hostLower : Option (List Char)
  netloc : List Char
  path : List Char
  query : List Char

/-- Model of `urllib.parse.urlparse` for the URL shapes the validators
handle: tab/CR/LF characters are removed up front (as `urlsplit` does), a
netloc is only recognised after `://`, `hostname` lowercases the host and
drops any userinfo/port.  Fragments are not modelled beyond stopping the
path and query at `#`. -/
def urlparse (url : List Char) : UrlParts :=
  let u := url.filter fun c => !(c == '\t' || c == '\r' || c == '\n')
  match findSub "://".data u with
  | none =>
    let path := u.takeWhile fun c => c != '?'
    let query := (u.dropWhile fun c => c != '?').drop 1
    ⟨none, [], path, query⟩
  | some i =>
    let rest := u.drop (i + 3)
    let netloc := rest.takeWhile fun c => !(c == '/' || c == '?' || c == '#')
    let rest2 := rest.drop netloc.length
    let path := rest2.takeWhile fun c => !(c == '?' || c == '#')
    let afterPath := rest2.drop path.length
    let query :=
      if afterPath.head? = some '?' then
        (afterPath.drop 1).takeWhile fun c => c != '#'
      else []
    let hostPart := ((splitOnChar '@' netloc).getLastD []).takeWhile fun c => c != ':'
    ⟨some (hostPart.map Char.toLower), netloc, path, query⟩

/-- First value of the `v` parameter per `urllib.parse.parse_qs`: pairs are
split on `&`, a pair without `=` or with an empty raw value is dropped, and
values are `unquote_plus`-decoded.  (Keys are compared raw; the inputs
considered use literal keys.) -/
def firstVParam (q : List Char) : Option (List Char) :=
  ((splitOnChar '&' q).filterMap fun nv =>
    if nv.contains '=' then
      let k := nv.takeWhile fun c => c != '='
      let v := (nv.dropWhile fun c => c != '=').drop 1
      if k = "v".data ∧ v ≠ [] then some (unquotePlus v) else none
    else none).head?

/-- `os.path.splitext` for strings without path separators: split at the
last dot, unless every character before it is also a dot. -/
def splitextL (p : List Char) : List Char × List Char :=
  match ((List.range p.length).filter fun i => p.getD i ' ' == '.').getLast? with
  | none => (p, [])
  | some i =>
    if (p.take i).any (fun c => c != '.') then (p.take i, p.drop i) else (p, [])

end Py

/-! Sanitizer building blocks shared by the two `sanitize_filename`
implementations (their first, third and fourth regex/strip steps are
textually identical). -/

namespace San

/-- The forbidden set replaced by `re.sub(r'[<>:"/\\|?*]', '_', s)`. -/
def isForbiddenChar (c : Char) : Bool :=
  c == '<' || c == '>' || c == ':' || c == '"' || c == '/' || c == '\\' ||
    c == '|' || c == '?' || c == '*'

def replaceForbidden (l : List Char) : List Char :=
  l.map fun c => if isForbiddenChar c then '_' else c

/-- `re.sub(r'[^\x00-\x7F]+', '_', s)`: each maximal run of non-ASCII
characters becomes a single underscore (`src/youtube_manager.py`). -/
def subNonAsciiRuns : List Char → List Char
  | [] => []
  | [c] => if 128 ≤ c.toNat then ['_'] else [c]
  | c :: d :: rest =>
    if 128 ≤ c.toNat then
      if 128 ≤ d.toNat then subNonAsciiRuns (d :: rest)
      else '_' :: d :: subNonAsciiRuns rest
    else c :: subNonAsciiRuns (d :: rest)

/-- `''.join(char if ord(char) < 128 else '_' for char in filename)`
(`app/utils/helpers.py`): each non-ASCII character individually becomes an
underscore. -/
def mapNonAscii (l : List Char) : List Char :=
  l.map fun c => if 128 ≤ c.toNat then '_' else c

/-- `re.sub(r'_+', '_', s)`: collapse runs of underscores. -/
def collapseUnd : List Char → List Char
  | [] => []
  | [c] => [c]
  | c :: d :: rest =>
    if c = '_' ∧ d = '_' then collapseUnd (d :: rest)
    else c :: collapseUnd (d :: rest)

/-- The set stripped by `filename.strip('. ')`. -/
def isDotSpace (c : Char) : Bool := c == '.' || c == ' '

end San

/-! ### The two URL validators -/

namespace App

/-- `app/utils/validators.py` `validate_youtube_url`: strip, accept a bare
11-character id, else parse the URL, extract a candidate id per host/path
shape, and re-validate the candidate against the id regex. -/
def validate_youtube_url (url : String) : Except String String :=
  let u := Py.stripWs url.data
  if Py.reMatch11 u then .ok ⟨u⟩
  else
    let p := Py.urlparse u
    let vid : Option (List Char) :=
      if p.hostLower = some "www.youtube.com".data ∨
          p.hostLower = some "youtube.com".data ∨
          p.hostLower = some "m.youtube.com".data then
        if p.path = "/watch".data ∨ p.path = "/shorts".data then
          Py.firstVParam p.query
        else if (Py.findSub "/shorts/".data p.path).isSome then
          some ((splitMarkerSecond "/shorts/".data p.path).takeWhile fun c => c != '?')
        else if ("/embed/".data).isPrefixOf p.path then
          some ((splitMarkerSecond "/embed/".data p.path).takeWhile fun c => c != '?')
        else if ("/v/".data).isPrefixOf p.path then
          some ((splitMarkerSecond "/v/".data p.path).takeWhile fun c => c != '?')
        else none
      else if p.hostLower = some "youtu.be".data then
        let v := p.path.dropWhile fun c => c = '/'
        some (if v.contains '?' then v.takeWhile (fun c => c != '?') else v)
      else none
    match vid with
    | some v =>
      if v ≠ [] ∧ Py.reMatch11 v then .ok ⟨v⟩
      else .error "Could not extract valid video ID from URL"
    | none => .error "Could not extract valid video ID from URL"
where
  /-- Python `l.split(marker)[1]`: the chunk between the first and second
  occurrence of the marker (callers guard on the marker occurring). -/
  splitMarkerSecond (marker l : List Char) : List Char :=
    match Py.findSub marker l with
    | none => []
    | some i =>
      let after := l.drop (i + marker.length)
      match Py.findSub marker after with
      | none => after
      | some j => after.take j

end App

namespace Ym

def invalidUrlMsg : String :=
  "Invalid YouTube URL format. Please provide a valid YouTube URL or video ID.\nSupported formats:\n- https://www.youtube.com/watch?v=VIDEO_ID\n- https://youtu.be/VIDEO_ID\n- https://youtube.com/shorts/VIDEO_ID\n- VIDEO_ID (11 characters)"

/-- `utils/validators.py` `extract_video_id_from_url`.  Note that it
compares the raw, case-sensitive `netloc`, tests `'watch' in path` as a
substring, and returns `path.split('/')[-1]` for shorts/embed paths. -/
def extract_video_id_from_url (u : List Char) : Except String (List Char) :=
  if Py.reMatch11 u then .ok u
  else
    let p := Py.urlparse u
    if p.netloc = "youtu.be".data then .ok (p.path.dropWhile fun c => c = '/')
    else if p.netloc = "www.youtube.com".data ∨ p.netloc = "youtube.com".data ∨
        p.netloc = "m.youtube.com".data then
      if (Py.findSub "watch".data p.path).isSome ∧ (Py.firstVParam p.query).isSome then
        .ok ((Py.firstVParam p.query).getD [])
      else if (Py.findSub "shorts".data p.path).isSome then
        .ok ((Py.splitOnChar '/' p.path).getLastD [])
      else if (Py.findSub "embed".data p.path).isSome then
        .ok ((Py.splitOnChar '/' p.path).getLastD [])
      else .error invalidUrlMsg
    else .error invalidUrlMsg

/-- `utils/validators.py` `validate_youtube_url`: reject empty input,
extract, then re-validate against the 11-character id regex. -/
def validate_youtube_url (url : String) : Except String String :=
  if url = "" then .error "URL cannot be empty"
  else
    match extract_video_id_from_url (Py.stripWs url.data) with
    | .error m => .error m
    | .ok vid =>
      if Py.reMatch11 vid then .ok ⟨vid⟩
      else .error "Invalid video ID format. YouTube video IDs are 11 characters long."

/-- The first four steps of `src/youtube_manager.py` `sanitize_filename`
(everything before the length truncation). -/
def sanitize_pre (l : List Char) : List Char :=
  Py.stripP San.isDotSpace
    (San.collapseUnd (San.subNonAsciiRuns (San.replaceForbidden l)))

/-- `src/youtube_manager.py` `sanitize_filename` on character lists:
replace forbidden characters, squash non-ASCII runs, collapse underscore
runs, strip leading/trailing dots and spaces, then truncate to 196
characters plus `...` when longer than 200. -/
def sanitize_filename_l (l : List Char) : List Char :=
  if 200 < (sanitize_pre l).length then (sanitize_pre l).take 196 ++ "...".data
  else sanitize_pre l

def sanitize_filename (s : String) : String := ⟨sanitize_filename_l s.data⟩

end Ym

namespace App

/-- The first four steps of `app/utils/helpers.py` `sanitize_filename`
(everything before the length truncation). -/
def sanitize_pre (l : List Char) : List Char :=
  Py.stripP San.isDotSpace
    (San.collapseUnd (San.mapNonAscii (San.replaceForbidden l)))

/-- `app/utils/helpers.py` `sanitize_filename` on character lists: like the
`Ym` version, but non-ASCII characters are replaced one-for-one, and the
truncation keeps the `os.path.splitext` extension after the `...`. -/
def sanitize_filename_l (l : List Char) : List Char :=
  if 200 < (sanitize_pre l).length then
    (Py.splitextL (sanitize_pre l)).1.take 196 ++ "...".data
      ++ (Py.splitextL (sanitize_pre l)).2
  else sanitize_pre l

def sanitize_filename (s : String) : String := ⟨sanitize_filename_l s.data⟩

end App

/-! ### Pipeline state

External effects are modelled explicitly: `files` is the simulated local
filesystem (path, size), `sheet` the tracking spreadsheet rows (header row
included), and `events` a trace of collaborator calls, most recent first. -/

inductive Ev
  | fetch
  | append
  | download
  | rename
  | upload
  | unlink
  | cellUpdate
deriving Repr, DecidableEq

structure PState where
  files : List (String × Nat)
  sheet : List (List String)
  events : List Ev
deriving Repr, DecidableEq

def fileExists (st : PState) (p : String) : Bool :=
  st.files.any fun f => f.1 == p

def addFile (st : PState) (p : String) (sz : Nat) : PState :=
  { st with files := st.files ++ [(p, sz)] }

def removeFile (st : PState) (p : String) : PState :=
  { st with files := st.files.filter fun f => f.1 != p }

def fileSize (st : PState) (p : String) : Nat :=
  ((st.files.find? fun f => f.1 == p).map Prod.snd).getD 0

def logEv (st : PState) (e : Ev) : PState :=
  { st with events := e :: st.events }

def setCell (sheet : List (List String)) (r c : Nat) (v : String) :
    List (List String) :=
  sheet.set r ((sheet.getD r []).set c v)

/-! ### The `app/` pipeline (`VideoProcessor`) -/

namespace App

/-- The yt-dlp `info` dictionary fields `get_video_info` reads. -/
structure Info where
  entries : Bool
  isLive : Bool
  ageLimit : Nat
  id : String
  title : String
  description : String
  tags : List String
  categories : List String
  thumbnail : String
deriving Repr, DecidableEq

/-- Oracle for the external collaborators: the metadata fetch result,
whether `ydl.download` leaves an output file and of what size, the Drive
upload result (`none` models a transport error), and the current date
string used by `add_video`. -/
structure World where
  info : Option Info
  dlCreates : Bool
  dlSize : Nat
  uploadId : Option String
  today : String
deriving Repr, DecidableEq

/-- `Settings` fields the pipeline reads. -/
structure Cfg where
  keepFiles : Bool
  uploadToDrive : Bool
  playlistId : Option String
deriving Repr, DecidableEq

/-- The exception classes of `app/utils/exceptions.py` that the modelled
code paths raise. -/
inductive Err
  | validationError (m : String)
  | downloadError (m : String)
  | sheetsError (m : String)
  | driveError (m : String)
  | processingError (m : String)
deriving Repr, DecidableEq

def Err.msg : Err → String
  | .validationError m => m
  | .downloadError m => m
  | .sheetsError m => m
  | .driveError m => m
  | .processingError m => m

/-- The metadata dictionary returned by
`YouTubeDownloader.get_video_info`. -/
structure Meta where
  id : String
  title : String
  description : String
  tags : String
  category : String
  thumbnail : String
deriving Repr, DecidableEq

/-- `app/core/downloader.py` `get_video_info`: reject a missing info dict,
playlists (`'entries' in info`), live streams and age-restricted videos,
then project the metadata fields. -/
def get_video_info (w : World) (st : PState) : Except Err Meta × PState :=
  let st := logEv st .fetch
  match w.info with
  | none => (.error (.downloadError "Failed to extract video information"), st)
  | some i =>
    if i.entries then
      (.error (.downloadError "URL appears to be a playlist. Please provide a single video URL."), st)
    else if i.isLive then
      (.error (.downloadError "Live streams are not supported"), st)
    else if 0 < i.ageLimit then
      (.error (.downloadError "Age-restricted videos are not supported"), st)
    else
      (.ok ⟨i.id, i.title, i.description,
        (if i.tags = [] then "" else String.intercalate ", " i.tags),
        (if i.categories = [] then "" else i.categories.headD ""),
        i.thumbnail⟩, st)

def VIDEO_DIR : String := "storage/videos"
def PROCESSED_DIR : String := "storage/videos/processed"

/-- `app/utils/helpers.py` `get_video_path`. -/
def get_video_path (videoId title directory : String) (temp : Bool) : String :=
  let filename := sanitize_filename title ++ "_" ++ videoId ++ ".mp4"
  if temp then directory ++ "/temp/" ++ filename else directory ++ "/" ++ filename

/-- `app/core/downloader.py` `download_video`: download to the temp path,
fail on an empty file, fail on a missing file, otherwise rename the temp
file to the processed location. -/
def download_video (w : World) (m : Meta) (st : PState) :
    Except Err String × PState :=
  let temp_path := get_video_path m.id m.title VIDEO_DIR true
  let st := logEv st .download
  let st := if w.dlCreates then addFile st temp_path w.dlSize else st
  let final_path := get_video_path m.id m.title PROCESSED_DIR false
  if fileExists st temp_path then
    if fileSize st temp_path == 0 then
      (.error (.downloadError "Downloaded file is empty"), st)
    else
      let sz := fileSize st temp_path
      (.ok final_path, logEv (addFile (removeFile st temp_path) final_path sz) .rename)
  else
    (.error (.downloadError "Download completed but file not found"), st)

def HEADERS : List String :=
  ["Title", "Description", "Tags", "Category", "Drive File ID", "Playlist",
   "Thumbnail", "Upload Date", "Download Status", "Upload Status"]

/-- `app/services/google_sheets.py` `_get_or_create_worksheet` header
provisioning: write headers into an empty sheet; on a mismatch clear the
whole sheet and rewrite them. -/
def get_or_create_worksheet (sheet : List (List String)) : List (List String) :=
  match sheet.head? with
  | none => [HEADERS]
  | some h => if h == HEADERS then sheet else [HEADERS]

/-- `app/services/google_sheets.py` `add_video` called with default
arguments: append a row with empty Drive File ID and both status columns
"Pending". -/
def add_video (cfg : Cfg) (w : World) (m : Meta) (st : PState) : PState :=
  let row := [m.title, m.description, m.tags, m.category, "",
    cfg.playlistId.getD "", m.thumbnail, w.today, "Pending", "Pending"]
  logEv { st with sheet := st.sheet ++ [row] } .append

/-- `gspread` `worksheet.find(title)`: row index of the first row (header
row included) containing a cell equal to the value, scanning row-major. -/
def findRowByValue (sheet : List (List String)) (v : String) : Option Nat :=
  sheet.findIdx? fun row => row.any fun cell => cell == v

/-- `app/services/google_sheets.py` `update_video_status`: locate the row
by title; update the Download Status cell only when the status argument is
the literal "Completed"; update the Drive File ID cell when a truthy id is
given. -/
def update_video_status (_videoId status : String) (driveFileId : Option String)
    (title : Option String) (st : PState) : Except Err Unit × PState :=
  match title with
  | none =>
    (.error (.sheetsError "Failed to update video status: Video title is required to update status"), st)
  | some t =>
    match findRowByValue st.sheet t with
    | none =>
      (.error (.sheetsError ("Failed to update video status: Video \x27" ++ t ++ "\x27 not found in spreadsheet")), st)
    | some r =>
      let st :=
        if status == "Completed" then
          logEv { st with sheet := setCell st.sheet r 8 "Completed" } .cellUpdate
        else st
      let st :=
        match driveFileId with
        | some d =>
          if d != "" then
            logEv { st with sheet := setCell st.sheet r 4 d } .cellUpdate
          else st
        | none => st
      (.ok (), st)

/-- `app/services/google_drive.py` `upload_file`: validate the file exists
(a `ValidationError` that the surrounding handler re-wraps), then upload;
`none` from the oracle models a transport error wrapped as
`GoogleDriveError`. -/
def upload_file (w : World) (path : String) (st : PState) :
    Except Err String × PState :=
  if !fileExists st path then
    (.error (.driveError ("Upload failed: File not found: " ++ path)), st)
  else
    let st := logEv st .upload
    match w.uploadId with
    | none => (.error (.driveError "Error during upload chunk: transport error"), st)
    | some fid => (.ok fid, st)

/-- `app/core/processor.py` `process_video`, the body of its `try` block:
validate, fetch metadata, pre-register the sheet row, download, then either
upload-and-finalize or record the local path. -/
def process_video_core (cfg : Cfg) (w : World) (url : String) (st : PState) :
    Except Err Unit × PState :=
  match validate_youtube_url url with
  | .error m => (.error (.validationError m), st)
  | .ok video_id =>
  match get_video_info w st with
  | (.error e, st) => (.error e, st)
  | (.ok m, st) =>
  let st := add_video cfg w m st
  match download_video w m st with
  | (.error e, st) => (.error e, st)
  | (.ok video_path, st) =>
  if cfg.uploadToDrive then
    match upload_file w video_path st with
    | (.error e, st) => (.error e, st)
    | (.ok file_id, st) =>
      if file_id != "" then
        match update_video_status video_id "Completed" (some file_id) (some m.title) st with
        | (.error e, st) => (.error e, st)
        | (.ok _, st) =>
          let st := if !cfg.keepFiles then logEv (removeFile st video_path) .unlink else st
          (.ok (), st)
      else (.ok (), st)
  else
    match update_video_status video_id "Completed Locally" (some video_path) (some m.title) st with
    | (.error e, st) => (.error e, st)
    | (.ok _, st) => (.ok (), st)

/-- `app/core/processor.py` `process_video` including its
`except Exception` clause, which re-raises everything as
`ProcessingError(f"Processing error: ...")`. -/
def process_video (cfg : Cfg) (w : World) (url : String) (st : PState) :
    Except Err Unit × PState :=
  match process_video_core cfg w url st with
  | (.ok u, st) => (.ok u, st)
  | (.error e, st) => (.error (.processingError ("Processing error: " ++ e.msg)), st)

end App

/-! ### The `src/youtube_manager.py` pipeline (`YouTubeManager`) -/

namespace Ym

/-- The yt-dlp `info` dictionary fields `get_video_data` and
`download_video` read. -/
structure Info where
  id : String
  title : String
  description : String
  tags : List String
  categories : List String
  thumbnail : String
  uploadDate : String
deriving Repr, DecidableEq

/-- Oracle for the collaborators: metadata result, whether the download
leaves `<id>.mp4` and of what size, whether the rename and the backup copy
succeed (their failures are caught and logged), and the Drive upload
result. -/
structure World where
  info : Option Info
  dlCreates : Bool
  dlSize : Nat
  renameOk : Bool
  copyOk : Bool
  uploadId : Option String
deriving Repr, DecidableEq

/-- `config/config.py` values the pipeline reads (`KEEP_FILE`,
`PLAYLIST_ID`). -/
structure Cfg where
  keepFile : Bool
  playlistId : String
deriving Repr, DecidableEq

/-- The exception classes of `utils/exceptions.py` raised by the modelled
code paths (`YouTubeDataError` is `dataError`). -/
inductive Err
  | validationError (m : String)
  | configurationError (m : String)
  | dataError (m : String)
  | sheetsError (m : String)
  | driveError (m : String)
deriving Repr, DecidableEq

def HEADERS : List String :=
  ["Title", "Description", "Tags", "Category", "Thumbnail", "Playlist",
   "Video ID", "Upload Date", "Drive File ID", "Download Status"]

/-- `get_or_create_sheet` header provisioning: insert headers into an empty
sheet; on a mismatch clear the sheet and rewrite them. -/
def get_or_create_sheet (st : PState) : PState :=
  match st.sheet.head? with
  | none => { st with sheet := [HEADERS] }
  | some h => if h == HEADERS then st else { st with sheet := [HEADERS] }

/-- `upload_date` formatting `f"{u[:4]}-{u[4:6]}-{u[6:]}"`. -/
def fmtUploadDate (d : String) : String :=
  if d = "" then ""
  else ⟨d.data.take 4⟩ ++ "-" ++ ⟨(d.data.drop 4).take 2⟩ ++ "-" ++ ⟨d.data.drop 6⟩

/-- `src/youtube_manager.py` `get_video_data`: build the 10-column row
(Drive File ID empty, Download Status "Pending"); a missing info dict is
re-wrapped by the handler as a `YouTubeDataError`. -/
def get_video_data (cfg : Cfg) (w : World) (_videoUrl : String) (st : PState) :
    Except Err (List String) × PState :=
  let st := logEv st .fetch
  match w.info with
  | none => (.error (.dataError "Data extraction error: Failed to extract video information"), st)
  | some i =>
    let tags := if i.tags = [] then "" else String.intercalate ", " i.tags
    let category := if i.categories = [] then "" else i.categories.headD ""
    (.ok [i.title, i.description, tags, category, i.thumbnail, cfg.playlistId,
      i.id, fmtUploadDate i.uploadDate, "", "Pending"], st)

def VIDEOS_DIR : String := "Videos"

/-- `src/youtube_manager.py` `download_video`: download `<id>.mp4` into the
Videos directory, fail if the file was not created (no size check!), rename
it to `<sanitized title>_<id>.mp4` (falling back to the temp name if the
rename fails), create a `backup_` copy, and delete the downloaded file
right away when `KEEP_FILE` is false.  Every failure is re-wrapped as
`YouTubeDataError("Video download failed: ...")`. -/
def download_video (cfg : Cfg) (w : World) (st : PState) :
    Except Err String × PState :=
  let st := logEv st .download
  match w.info with
  | none => (.error (.dataError "Video download failed: Failed to extract downloaded video information"), st)
  | some i =>
    if i.id = "" then
      (.error (.dataError "Video download failed: Could not extract video ID"), st)
    else
      let temp_name := i.id ++ ".mp4"
      let temp_path := VIDEOS_DIR ++ "/" ++ temp_name
      let st := if w.dlCreates then addFile st temp_path w.dlSize else st
      if !fileExists st temp_path then
        (.error (.dataError "Video download failed: Download completed but file was not created"), st)
      else
        let final_name := sanitize_filename i.title ++ "_" ++ i.id ++ ".mp4"
        let final_path := VIDEOS_DIR ++ "/" ++ final_name
        let sz := fileSize st temp_path
        let vname := if w.renameOk then final_name else temp_name
        let st :=
          if w.renameOk then logEv (addFile (removeFile st temp_path) final_path sz) .rename
          else st
        let vpath := VIDEOS_DIR ++ "/" ++ vname
        let st := if w.copyOk then addFile st (VIDEOS_DIR ++ "/backup_" ++ vname) sz else st
        let st :=
          if !cfg.keepFile && fileExists st vpath then logEv (removeFile st vpath) .unlink
          else st
        (.ok vpath, st)

/-- `src/youtube_manager.py` `upload_to_drive`: validate the file exists
(the `ValidationError` is re-wrapped by the surrounding handler into
`GoogleDriveError("Upload failed: ...")`), then upload. -/
def upload_to_drive (w : World) (path : String) (st : PState) :
    Except Err String × PState :=
  if !fileExists st path then
    (.error (.driveError ("Upload failed: File validation failed: File not found: " ++ path)), st)
  else
    let st := logEv st .upload
    match w.uploadId with
    | none => (.error (.driveError "Upload failed: transport error"), st)
    | some fid => (.ok fid, st)

/-- `gspread` `sheet.col_values(c)` (1-indexed column), header row
included. -/
def colValues (sheet : List (List String)) (c : Nat) : List String :=
  sheet.map fun row => row.getD (c - 1) ""

/-- `src/youtube_manager.py` `update_spreadsheet`: fill in the Drive File
ID and set Download Status to "Completed" in the row data, then scan column
7 (Video ID) for a duplicate; on a duplicate return `False` WITHOUT
appending, otherwise append the row and return `True`. -/
def update_spreadsheet (video_data : List String) (drive_file_id : String)
    (st : PState) : Except Err Bool × PState :=
  let vd := (video_data.set 8 drive_file_id).set 9 "Completed"
  let video_id := vd.getD 6 ""
  let existing_ids := colValues st.sheet 7
  if existing_ids.contains video_id then (.ok false, st)
  else (.ok true, logEv { st with sheet := st.sheet ++ [vd] } .append)

/-- The `finally` block of `process_video`: delete the downloaded file if
the `video_path` local variable was bound and the file exists, regardless
of `KEEP_FILE`. -/
def cleanupFinally (vpath : Option String) (st : PState) : PState :=
  match vpath with
  | none => st
  | some p => if fileExists st p then logEv (removeFile st p) .unlink else st

/-- `src/youtube_manager.py` `process_video`: validate, provision the
sheet, fetch metadata, download, upload, then update the spreadsheet (where
the duplicate check lives); the `finally` clause always deletes the
downloaded file once `video_path` is bound.  Errors propagate unchanged
(the `except` clause logs and bare-`raise`s). -/
def process_video (cfg : Cfg) (w : World) (url : String) (st : PState) :
    Except Err Bool × PState :=
  match validate_youtube_url url with
  | .error m => (.error (.validationError m), st)
  | .ok video_id =>
    let video_url := "https://www.youtube.com/watch?v=" ++ video_id
    let st := get_or_create_sheet st
    match get_video_data cfg w video_url st with
    | (.error e, st) => (.error e, st)
    | (.ok video_data, st) =>
    match download_video cfg w st with
    | (.error e, st) => (.error e, st)
    | (.ok video_path, st) =>
    match upload_to_drive w video_path st with
    | (.error e, st) => (.error e, cleanupFinally (some video_path) st)
    | (.ok drive_file_id, st) =>
    if drive_file_id == "" then
      (.error (.driveError "Failed to upload to Google Drive"), cleanupFinally (some video_path) st)
    else
      match update_spreadsheet video_data drive_file_id st with
      | (.error e, st) => (.error e, cleanupFinally (some video_path) st)
      | (.ok b, st) => (.ok b, cleanupFinally (some video_path) st)

end Ym

/-! ### Auxiliary predicates and concrete fixtures used by the theorems -/

/-- No two adjacent underscores (the normal form produced by
`re.sub(r'_+', '_', s)`). -/
def noAdjB : List Char → Bool
  | [] => true
  | [_] => true
  | c :: d :: rest => if c = '_' ∧ d = '_' then false else noAdjB (d :: rest)

/-- An ASCII character outside the forbidden set. -/
def goodChar (c : Char) : Bool :=
  decide (c.toNat < 128) && !San.isForbiddenChar c

/-- A character of printable ASCII (0x20 to 0x7e). -/
def printableAscii (c : Char) : Bool :=
  decide (32 ≤ c.toNat ∧ c.toNat ≤ 126)

/-- Metadata fixture for the `Ym` pipeline. -/
def ymInfo0 : Ym.Info :=
  ⟨"dQw4w9WgXcQ", "My Video", "desc", ["t1", "t2"], ["Music"], "http://thumb", "20240101"⟩

/-- A `Ym` world in which every collaborator call succeeds. -/
def ymHappyWorld (i : Ym.Info) : Ym.World := ⟨some i, true, 5, true, true, some "abc123"⟩

/-- A `Ym` world in which the download reports success but creates no
file. -/
def ymNoFileWorld (i : Ym.Info) : Ym.World := ⟨some i, false, 0, true, true, some "abc123"⟩

/-- A `Ym` world in which the download creates a zero-byte file. -/
def ymZeroWorld (i : Ym.Info) : Ym.World := ⟨some i, true, 0, true, true, some "abc123"⟩

/-- An initial state whose sheet holds only the `Ym` header row. -/
def ymSt0 : PState := ⟨[], [Ym.HEADERS], []⟩

/-- A pre-existing tracking row for `ymInfo0` (column 7 = its video id). -/
def ymDupRow : List String :=
  ["My Video", "d", "t", "c", "th", "PL1", "dQw4w9WgXcQ", "2024-01-01", "fid", "Completed"]

/-- Metadata fixture for the `App` pipeline. -/
def appInfo0 : App.Info :=
  ⟨false, false, 0, "dQw4w9WgXcQ", "My Video", "desc", ["t1", "t2"], ["Music"], "http://thumb"⟩

/-- An `App` world in which every collaborator call succeeds. -/
def appHappyWorld (i : App.Info) : App.World := ⟨some i, true, 5, some "abc123", "2024-01-01"⟩

/-- An `App` world in which the download reports success but creates no
file. -/
def appNoFileWorld (i : App.Info) : App.World := ⟨some i, false, 0, some "abc123", "2024-01-01"⟩

/-- An initial state whose sheet holds only the `App` header row. -/
def appSt0 : PState := ⟨[], [App.HEADERS], []⟩

deriving instance DecidableEq for Except

/-! ### Generic list lemmas for the strip/collapse normal forms -/

theorem dw_dw (p : Char → Bool) : ∀ l : List Char,
    (l.dropWhile p).dropWhile p = l.dropWhile p
  | [] => rfl
  | c :: t => by
    by_cases h : p c
    · simp [List.dropWhile_cons, h, dw_dw p t]
    · simp [List.dropWhile_cons, h]

theorem dw_len_le (p : Char → Bool) : ∀ l : List Char,
    (l.dropWhile p).length ≤ l.length
  | [] => Nat.le_refl _
  | c :: t => by
    by_cases h : p c
    · simp only [List.dropWhile_cons, if_pos h]
      exact Nat.le_trans (dw_len_le p t) (Nat.le_succ _)
    · simp [List.dropWhile_cons, h]

theorem dw_pref_fix (p : Char → Bool) {l m : List Char}
    (hl : l.dropWhile p = l) (hm : m <+: l) : m.dropWhile p = m := by
  cases l with
  | nil =>
    have : m = [] := by
      obtain ⟨t, ht⟩ := hm
      cases m with
      | nil => rfl
      | cons b u => simp at ht
    simp [this]
  | cons c t =>
    have hpc : ¬ p c = true := by
      intro hp
      rw [List.dropWhile_cons, if_pos hp] at hl
      have h1 := dw_len_le p t
      rw [hl] at h1
      simp at h1
    cases m with
    | nil => rfl
    | cons b u =>
      obtain ⟨k, hk⟩ := hm
      have hb : b = c := by
        have := congrArg List.head? hk
        simpa using this
      subst hb
      rw [List.dropWhile_cons, if_neg hpc]

theorem dw_suffix (p : Char → Bool) : ∀ l : List Char,
    ∃ t, t ++ l.dropWhile p = l
  | [] => ⟨[], rfl⟩
  | c :: t => by
    by_cases h : p c
    · obtain ⟨u, hu⟩ := dw_suffix p t
      exact ⟨c :: u, by simp [List.dropWhile_cons, h, hu]⟩
    · exact ⟨[], by simp [List.dropWhile_cons, h]⟩

theorem rstrip_pref (p : Char → Bool) (l : List Char) :
    ∃ t, Py.rstripP p l ++ t = l := by
  obtain ⟨u, hu⟩ := dw_suffix p l.reverse
  refine ⟨u.reverse, ?_⟩
  have h2 := congrArg List.reverse hu
  simpa [Py.rstripP] using h2

theorem rstrip_rstrip (p : Char → Bool) (l : List Char) :
    Py.rstripP p (Py.rstripP p l) = Py.rstripP p l := by
  simp [Py.rstripP, dw_dw]

theorem strip_strip (p : Char → Bool) (l : List Char) :
    Py.stripP p (Py.stripP p l) = Py.stripP p l := by
  unfold Py.stripP Py.lstripP
  have h1 : (Py.rstripP p (l.dropWhile p)).dropWhile p
      = Py.rstripP p (l.dropWhile p) :=
    dw_pref_fix p (dw_dw p l) (rstrip_pref p (l.dropWhile p))
  rw [h1, rstrip_rstrip]

theorem mem_strip {p : Char → Bool} {c : Char} {l : List Char}
    (h : c ∈ Py.stripP p l) : c ∈ l := by
  unfold Py.stripP Py.lstripP at h
  obtain ⟨t, ht⟩ := rstrip_pref p (l.dropWhile p)
  obtain ⟨u, hu⟩ := dw_suffix p l
  have h2 : c ∈ l.dropWhile p := by
    rw [← ht]; exact List.mem_append_left _ h
  rw [← hu]; exact List.mem_append_right _ h2

/-! ### noAdjB lemmas -/

theorem noAdjB_tail {c : Char} {t : List Char} (h : noAdjB (c :: t) = true) :
    noAdjB t = true := by
  cases t with
  | nil => rfl
  | cons d r =>
    by_cases hcd : c = '_' ∧ d = '_'
    · simp only [noAdjB, if_pos hcd] at h
      exact absurd h (by simp)
    · simpa only [noAdjB, if_neg hcd] using h

theorem noAdjB_append_left : ∀ (S t : List Char),
    noAdjB (S ++ t) = true → noAdjB S = true
  | [], _, _ => rfl
  | [_], _, _ => rfl
  | c :: d :: r, t, h => by
    simp only [List.cons_append, noAdjB] at h ⊢
    by_cases hcd : c = '_' ∧ d = '_'
    · rw [if_pos hcd] at h
      exact absurd h (by simp)
    · rw [if_neg hcd] at h ⊢
      exact noAdjB_append_left (d :: r) t (by simp only [List.cons_append]; exact h)

theorem noAdjB_append_right : ∀ (t S : List Char),
    noAdjB (t ++ S) = true → noAdjB S = true
  | [], _, h => h
  | c :: t, S, h => by
    have h2 : noAdjB (c :: (t ++ S)) = true := by
      simp only [List.cons_append] at h
      exact h
    exact noAdjB_append_right t S (noAdjB_tail h2)

theorem noAdjB_strip {p : Char → Bool} {l : List Char}
    (h : noAdjB l = true) : noAdjB (Py.stripP p l) = true := by
  unfold Py.stripP Py.lstripP
  obtain ⟨u, hu⟩ := dw_suffix p l
  have h1 : noAdjB (l.dropWhile p) = true := by
    apply noAdjB_append_right u
    rw [hu]; exact h
  obtain ⟨t, ht⟩ := rstrip_pref p (l.dropWhile p)
  apply noAdjB_append_left _ t
  rw [ht]; exact h1

/-! ### Stage lemmas for the sanitizers -/

theorem mem_replF {c : Char} {l : List Char}
    (h : c ∈ San.replaceForbidden l) : San.isForbiddenChar c = false := by
  simp only [San.replaceForbidden, List.mem_map] at h
  obtain ⟨x, _, hfx⟩ := h
  by_cases hf : San.isForbiddenChar x = true
  · rw [if_pos hf] at hfx
    rw [← hfx]
    decide
  · rw [if_neg hf] at hfx
    rw [← hfx]
    simpa using hf

theorem replF_fix : ∀ (l : List Char),
    (∀ c ∈ l, San.isForbiddenChar c = false) → San.replaceForbidden l = l
  | [], _ => rfl
  | c :: t, h => by
    have hc := h c (List.mem_cons_self c t)
    have ht := replF_fix t fun x hx => h x (List.mem_cons_of_mem c hx)
    simp only [San.replaceForbidden, List.map_cons] at ht ⊢
    rw [hc]
    simp only [Bool.false_eq_true, if_false, ht]

theorem mem_subNA : ∀ {c : Char} {l : List Char},
    c ∈ San.subNonAsciiRuns l → c = '_' ∨ (c ∈ l ∧ c.toNat < 128)
  | c, [], h => by simp [San.subNonAsciiRuns] at h
  | c, [d], h => by
    by_cases hd : 128 ≤ d.toNat
    · simp [San.subNonAsciiRuns, hd] at h
      exact Or.inl h
    · simp [San.subNonAsciiRuns, hd] at h
      subst h
      exact Or.inr ⟨List.mem_cons_self _ _, Nat.lt_of_not_le hd⟩
  | c, a :: d :: rest, h => by
    by_cases ha : 128 ≤ a.toNat
    · by_cases hd : 128 ≤ d.toNat
      · simp only [San.subNonAsciiRuns, if_pos ha, if_pos hd] at h
        rcases mem_subNA h with h1 | ⟨h2, h3⟩
        · exact Or.inl h1
        · exact Or.inr ⟨List.mem_cons_of_mem a h2, h3⟩
      · simp only [San.subNonAsciiRuns, if_pos ha, if_neg hd, List.mem_cons] at h
        rcases h with h1 | h1 | h1
        · exact Or.inl h1
        · subst h1
          exact Or.inr ⟨List.mem_cons_of_mem a (List.mem_cons_self _ _), Nat.lt_of_not_le hd⟩
        · rcases mem_subNA h1 with h2 | ⟨h2, h3⟩
          · exact Or.inl h2
          · exact Or.inr ⟨List.mem_cons_of_mem a (List.mem_cons_of_mem d h2), h3⟩
    · simp only [San.subNonAsciiRuns, if_neg ha, List.mem_cons] at h
      rcases h with h1 | h1
      · subst h1
        exact Or.inr ⟨List.mem_cons_self _ _, Nat.lt_of_not_le ha⟩
      · rcases mem_subNA h1 with h2 | ⟨h2, h3⟩
        · exact Or.inl h2
        · exact Or.inr ⟨List.mem_cons_of_mem a h2, h3⟩

theorem subNA_fix : ∀ (l : List Char),
    (∀ c ∈ l, c.toNat < 128) → San.subNonAsciiRuns l = l
  | [], _ => rfl
  | [c], h => by
    have hc := h c (List.mem_cons_self c [])
    simp [San.subNonAsciiRuns, Nat.not_le_of_lt hc]
  | c :: d :: rest, h => by
    have hc := h c (List.mem_cons_self _ _)
    have ht := subNA_fix (d :: rest) fun x hx => h x (List.mem_cons_of_mem c hx)
    simp only [San.subNonAsciiRuns, if_neg (Nat.not_le_of_lt hc), ht]

theorem mem_mapNA {c : Char} {l : List Char}
    (h : c ∈ San.mapNonAscii l) : c = '_' ∨ (c ∈ l ∧ c.toNat < 128) := by
  simp only [San.mapNonAscii, List.mem_map] at h
  obtain ⟨x, hx, hfx⟩ := h
  by_cases hxa : 128 ≤ x.toNat
  · rw [if_pos hxa] at hfx
    exact Or.inl hfx.symm
  · rw [if_neg hxa] at hfx
    subst hfx
    exact Or.inr ⟨hx, Nat.lt_of_not_le hxa⟩

theorem mapNA_fix : ∀ (l : List Char),
    (∀ c ∈ l, c.toNat < 128) → San.mapNonAscii l = l
  | [], _ => rfl
  | c :: t, h => by
    have hc := h c (List.mem_cons_self c t)
    have ht := mapNA_fix t fun x hx => h x (List.mem_cons_of_mem c hx)
    simp only [San.mapNonAscii, List.map_cons] at ht ⊢
    rw [if_neg (Nat.not_le_of_lt hc), ht]

theorem mem_collapse : ∀ {c : Char} {l : List Char},
    c ∈ San.collapseUnd l → c ∈ l
  | c, [], h => by simp [San.collapseUnd] at h
  | c, [d], h => by
    simp only [San.collapseUnd] at h
    exact h
  | c, a :: d :: rest, h => by
    by_cases had : a = '_' ∧ d = '_'
    · simp only [San.collapseUnd, if_pos had] at h
      exact List.mem_cons_of_mem a (mem_collapse h)
    · simp only [San.collapseUnd, if_neg had, List.mem_cons] at h
      rcases h with h1 | h1
      · exact h1 ▸ List.mem_cons_self _ _
      · exact List.mem_cons_of_mem a (mem_collapse h1)

theorem head?_collapse : ∀ (l : List Char),
    (San.collapseUnd l).head? = l.head?
  | [] => rfl
  | [_] => rfl
  | a :: d :: rest => by
    by_cases had : a = '_' ∧ d = '_'
    · simp only [San.collapseUnd, if_pos had, head?_collapse (d :: rest)]
      simp [had.1, had.2]
    · simp only [San.collapseUnd, if_neg had]
      rfl

theorem noAdjB_collapse : ∀ (l : List Char), noAdjB (San.collapseUnd l) = true
  | [] => rfl
  | [_] => rfl
  | a :: d :: rest => by
    by_cases had : a = '_' ∧ d = '_'
    · simp only [San.collapseUnd, if_pos had]
      exact noAdjB_collapse (d :: rest)
    · simp only [San.collapseUnd, if_neg had]
      have ih := noAdjB_collapse (d :: rest)
      cases hX : San.collapseUnd (d :: rest) with
      | nil => rfl
      | cons e Y =>
        have he : e = d := by
          have h2 := head?_collapse (d :: rest)
          rw [hX] at h2
          exact Option.some.inj h2
        subst he
        simp only [noAdjB, if_neg had]
        rw [← hX]
        exact ih

theorem collapse_fix : ∀ (l : List Char), noAdjB l = true → San.collapseUnd l = l
  | [], _ => rfl
  | [_], _ => rfl
  | a :: d :: rest, h => by
    by_cases had : a = '_' ∧ d = '_'
    · simp only [noAdjB, if_pos had] at h
      exact absurd h (by simp)
    · simp only [noAdjB, if_neg had] at h
      simp only [San.collapseUnd, if_neg had, collapse_fix (d :: rest) h]

/-! ### Character invariants of the sanitizer outputs -/

theorem ym_pre_mem {c : Char} {l : List Char} (h : c ∈ Ym.sanitize_pre l) :
    c.toNat < 128 ∧ San.isForbiddenChar c = false := by
  unfold Ym.sanitize_pre at h
  have h1 := mem_collapse (mem_strip h)
  rcases mem_subNA h1 with h2 | ⟨h2, h3⟩
  · subst h2
    exact ⟨by decide, by decide⟩
  · exact ⟨h3, mem_replF h2⟩

theorem app_pre_mem {c : Char} {l : List Char} (h : c ∈ App.sanitize_pre l) :
    c.toNat < 128 ∧ San.isForbiddenChar c = false := by
  unfold App.sanitize_pre at h
  have h1 := mem_collapse (mem_strip h)
  rcases mem_mapNA h1 with h2 | ⟨h2, h3⟩
  · subst h2
    exact ⟨by decide, by decide⟩
  · exact ⟨h3, mem_replF h2⟩

theorem ym_pre_idem (l : List Char) :
    Ym.sanitize_pre (Ym.sanitize_pre l) = Ym.sanitize_pre l := by
  have hforb : ∀ c ∈ Ym.sanitize_pre l, San.isForbiddenChar c = false :=
    fun c hc => (ym_pre_mem hc).2
  have hasc : ∀ c ∈ Ym.sanitize_pre l, c.toNat < 128 :=
    fun c hc => (ym_pre_mem hc).1
  have hadj : noAdjB (Ym.sanitize_pre l) = true := by
    unfold Ym.sanitize_pre
    exact noAdjB_strip (noAdjB_collapse _)
  conv_lhs => rw [Ym.sanitize_pre]
  rw [replF_fix _ hforb, subNA_fix _ hasc, collapse_fix _ hadj]
  conv_rhs => rw [Ym.sanitize_pre]
  conv_lhs => rw [Ym.sanitize_pre]
  exact strip_strip _ _

theorem app_pre_idem (l : List Char) :
    App.sanitize_pre (App.sanitize_pre l) = App.sanitize_pre l := by
  have hforb : ∀ c ∈ App.sanitize_pre l, San.isForbiddenChar c = false :=
    fun c hc => (app_pre_mem hc).2
  have hasc : ∀ c ∈ App.sanitize_pre l, c.toNat < 128 :=
    fun c hc => (app_pre_mem hc).1
  have hadj : noAdjB (App.sanitize_pre l) = true := by
    unfold App.sanitize_pre
    exact noAdjB_strip (noAdjB_collapse _)
  conv_lhs => rw [App.sanitize_pre]
  rw [replF_fix _ hforb, mapNA_fix _ hasc, collapse_fix _ hadj]
  conv_rhs => rw [App.sanitize_pre]
  conv_lhs => rw [App.sanitize_pre]
  exact strip_strip _ _

theorem mem_splitext_fst {s : List Char} {c : Char}
    (h : c ∈ (Py.splitextL s).1) : c ∈ s := by
  unfold Py.splitextL at h
  split at h
  · exact h
  · split at h
    · have h2 := h
      rw [← List.take_append_drop _ s]
      exact List.mem_append_left _ h2
    · exact h

theorem mem_splitext_snd {s : List Char} {c : Char}
    (h : c ∈ (Py.splitextL s).2) : c ∈ s := by
  unfold Py.splitextL at h
  split at h
  · simp at h
  · split at h
    · have h2 := h
      rw [← List.take_append_drop _ s]
      exact List.mem_append_right _ h2
    · simp at h

/-! ### Claim C4: idempotence of the sanitizer -/

set_option maxRecDepth 10000

/-- C4 counterexample: `sanitize` is NOT idempotent on inputs whose
sanitized form is truncated.  For 201 copies of `a`, the first application
yields 196 `a`s followed by `...`, and the second application strips those
trailing dots, in both implementations. -/
theorem c4_counterexample :
    App.sanitize_filename_l (App.sanitize_filename_l (List.replicate 201 'a'))
      ≠ App.sanitize_filename_l (List.replicate 201 'a') ∧
    Ym.sanitize_filename_l (Ym.sanitize_filename_l (List.replicate 201 'a'))
      ≠ Ym.sanitize_filename_l (List.replicate 201 'a') := by decide

/-- C4 (amended): `sanitize` is idempotent on every input whose
pre-truncation sanitized form has length at most 200 (so no `...` suffix is
appended); on longer inputs the appended `...` is removed by the
`strip('. ')` step of the second application, so idempotence fails. -/
theorem c4_sanitize_idempotent_unless_truncated (l : List Char)
    (h1 : (Ym.sanitize_pre l).length ≤ 200)
    (h2 : (App.sanitize_pre l).length ≤ 200) :
    Ym.sanitize_filename_l (Ym.sanitize_filename_l l) = Ym.sanitize_filename_l l ∧
    App.sanitize_filename_l (App.sanitize_filename_l l) = App.sanitize_filename_l l := by
  constructor
  · have hs : Ym.sanitize_filename_l l = Ym.sanitize_pre l := by
      unfold Ym.sanitize_filename_l
      rw [if_neg (Nat.not_lt.mpr h1)]
    rw [hs]
    unfold Ym.sanitize_filename_l
    rw [ym_pre_idem l, if_neg (Nat.not_lt.mpr h1)]
  · have hs : App.sanitize_filename_l l = App.sanitize_pre l := by
      unfold App.sanitize_filename_l
      rw [if_neg (Nat.not_lt.mpr h2)]
    rw [hs]
    unfold App.sanitize_filename_l
    rw [app_pre_idem l, if_neg (Nat.not_lt.mpr h2)]

/-- C4 witness: the amended theorem applied at a concrete input. -/
theorem c4_witness :
    (Ym.sanitize_pre "My Video Title".data).length ≤ 200 ∧
    (App.sanitize_pre "My Video Title".data).length ≤ 200 ∧
    (Ym.sanitize_filename_l (Ym.sanitize_filename_l "My Video Title".data)
        = Ym.sanitize_filename_l "My Video Title".data ∧
      App.sanitize_filename_l (App.sanitize_filename_l "My Video Title".data)
        = App.sanitize_filename_l "My Video Title".data) :=
  ⟨by decide, by decide,
    c4_sanitize_idempotent_unless_truncated _ (by decide) (by decide)⟩

/-! ### Claim C5: output length bound and character set -/

/-- C5 counterexample: the sanitizer output is NOT always printable ASCII
(ASCII control characters below 0x20 pass every filter), and the
`app/utils/helpers.py` variant is NOT bounded by 203 characters: after
truncation it re-appends the `os.path.splitext` extension, which can be
arbitrarily long (`'a.' + 'b'*240` sanitizes to 245 characters). -/
theorem c5_counterexample :
    (Ym.sanitize_filename_l ['\x07']).all printableAscii = false ∧
    (App.sanitize_filename_l ['\x07']).all printableAscii = false ∧
    203 < (App.sanitize_filename_l ('a' :: '.' :: List.replicate 240 'b')).length := by
  decide

/-- C5 (amended): for every input, the `src/youtube_manager.py` sanitizer
output has length at most 203 (in fact at most 200), and both sanitizers
emit only ASCII characters (not necessarily printable) outside the
forbidden set; the length bound does not hold for the helpers variant. -/
theorem c5_sanitize_length_and_charset (l : List Char) :
    (Ym.sanitize_filename_l l).length ≤ 203 ∧
    (Ym.sanitize_filename_l l).all goodChar = true ∧
    (App.sanitize_filename_l l).all goodChar = true := by
  refine ⟨?_, ?_, ?_⟩
  · unfold Ym.sanitize_filename_l
    by_cases h : 200 < (Ym.sanitize_pre l).length
    · rw [if_pos h]
      simp only [List.length_append, List.length_take]
      have : (Ym.sanitize_pre l).length ⊓ 196 = 196 := by omega
      simp [this]
    · rw [if_neg h]
      omega
  · rw [List.all_eq_true]
    intro c hc
    unfold Ym.sanitize_filename_l at hc
    split at hc
    · rcases List.mem_append.mp hc with h1 | h1
      · have h2 : c ∈ Ym.sanitize_pre l := by
          rw [← List.take_append_drop 196 (Ym.sanitize_pre l)]
          exact List.mem_append_left _ h1
        have h3 := ym_pre_mem h2
        simp [goodChar, h3.1, h3.2]
      · have : c = '.' := by
          simpa using h1
        subst this
        decide
    · have h3 := ym_pre_mem hc
      simp [goodChar, h3.1, h3.2]
  · rw [List.all_eq_true]
    intro c hc
    unfold App.sanitize_filename_l at hc
    split at hc
    · rcases List.mem_append.mp hc with h1 | h1
      · rcases List.mem_append.mp h1 with h2 | h2
        · have h4 : c ∈ App.sanitize_pre l := by
            apply mem_splitext_fst
            rw [← List.take_append_drop 196 (Py.splitextL (App.sanitize_pre l)).1]
            exact List.mem_append_left _ h2
          have h5 := app_pre_mem h4
          simp [goodChar, h5.1, h5.2]
        · have : c = '.' := by
            simpa using h2
          subst this
          decide
      · have h4 : c ∈ App.sanitize_pre l := mem_splitext_snd h1
        have h5 := app_pre_mem h4
        simp [goodChar, h5.1, h5.2]
    · have h3 := app_pre_mem hc
      simp [goodChar, h3.1, h3.2]

/-! ### Claim C9: the extractor returns validated identifiers -/

theorem reMatch11_of_full {l : List Char} (h : Py.fullMatch11 l = true) :
    Py.reMatch11 l = true := by
  simp [Py.reMatch11, h]

/-- Whatever `app/utils/validators.py` returns has passed the final
`re.match` gate. -/
theorem validate_gate_app (url : String) :
    ∀ v, App.validate_youtube_url url = .ok v → Py.reMatch11 v.data = true := by
  intro v h
  unfold App.validate_youtube_url at h
  dsimp only at h
  split at h
  · rename_i hg
    obtain rfl : (⟨Py.stripWs url.data⟩ : String) = v := Except.ok.inj h
    exact hg
  · split at h
    · rename_i w hw
      split at h
      · rename_i hg
        obtain rfl : (⟨w⟩ : String) = v := Except.ok.inj h
        exact hg.2
      · simp at h
    · simp at h

/-- Whatever `utils/validators.py` returns has passed the final `re.match`
gate. -/
theorem validate_gate_ym (url : String) :
    ∀ v, Ym.validate_youtube_url url = .ok v → Py.reMatch11 v.data = true := by
  intro v h
  unfold Ym.validate_youtube_url at h
  split at h
  · simp at h
  · split at h
    · simp at h
    · rename_i vid hvid
      split at h
      · rename_i hg
        obtain rfl : (⟨vid⟩ : String) = v := Except.ok.inj h
        exact hg
      · simp at h

/-- A stripped input that is exactly 11 class characters is returned
unchanged by both validators. -/
theorem validate_id_roundtrip (url : String)
    (h : Py.fullMatch11 (Py.stripWs url.data) = true) :
    App.validate_youtube_url url = .ok ⟨Py.stripWs url.data⟩ ∧
    Ym.validate_youtube_url url = .ok ⟨Py.stripWs url.data⟩ := by
  have hre : Py.reMatch11 (Py.stripWs url.data) = true := reMatch11_of_full h
  constructor
  · unfold App.validate_youtube_url
    dsimp only
    rw [if_pos hre]
  · have hne : ¬ url = "" := by
      intro he
      subst he
      simp [Py.stripWs, Py.stripP, Py.lstripP, Py.rstripP, Py.fullMatch11] at h
    unfold Ym.validate_youtube_url
    rw [if_neg hne]
    unfold Ym.extract_video_id_from_url
    rw [if_pos hre]
    dsimp only
    rw [if_pos hre]

/-- C9 counterexample: the claim that `extract` returns only strings of
exactly 11 class characters is false.  Python `re.match` with an anchored
`$` also accepts one trailing newline, and `parse_qs` percent-decodes
`%0A` to a newline, so `watch?v=abcdefghijk%0A` makes BOTH validators
return the 12-character string `abcdefghijk` followed by a newline. -/
theorem c9_counterexample :
    App.validate_youtube_url "https://www.youtube.com/watch?v=abcdefghijk%0A"
        = .ok "abcdefghijk\n" ∧
    Ym.validate_youtube_url "https://www.youtube.com/watch?v=abcdefghijk%0A"
        = .ok "abcdefghijk\n" ∧
    Py.fullMatch11 "abcdefghijk\n".data = false := by decide

/-- C9 (amended): both `validate_youtube_url` implementations either fail
with `ValidationError` or return a string accepted by Python
`re.match(r'^[A-Za-z0-9_-]{11}$', ...)` - that is, 11 characters of
`[A-Za-z0-9_-]`, possibly followed by one trailing newline; and any
trimmed input that is itself exactly 11 class characters is returned
unchanged. -/
theorem c9_extract_matches_python_regex (url : String) :
    (∀ v, App.validate_youtube_url url = .ok v → Py.reMatch11 v.data = true) ∧
    (∀ v, Ym.validate_youtube_url url = .ok v → Py.reMatch11 v.data = true) ∧
    (Py.fullMatch11 (Py.stripWs url.data) = true →
      App.validate_youtube_url url = .ok ⟨Py.stripWs url.data⟩ ∧
      Ym.validate_youtube_url url = .ok ⟨Py.stripWs url.data⟩) :=
  ⟨validate_gate_app url, validate_gate_ym url, validate_id_roundtrip url⟩

/-- C9 witness: the amended theorem applied at the identifier
`dQw4w9WgXcQ`. -/
theorem c9_witness :
    App.validate_youtube_url "dQw4w9WgXcQ" = .ok "dQw4w9WgXcQ" ∧
    Py.reMatch11 "dQw4w9WgXcQ".data = true :=
  ⟨by decide,
    (c9_extract_matches_python_regex "dQw4w9WgXcQ").1 "dQw4w9WgXcQ" (by decide)⟩

/-! ### Claim C1: duplicate handling -/

/-- C1 counterexample: with a row for the same video id already in the
sheet and every collaborator succeeding, `YouTubeManager.process_video`
returns the AlreadyExists outcome (`False`) and appends no second row, but
the upload HAS been invoked: the duplicate scan lives in
`update_spreadsheet`, which runs after `upload_to_drive`. -/
theorem c1_counterexample :
    (Ym.process_video ⟨true, "PL1"⟩ (ymHappyWorld ymInfo0) "dQw4w9WgXcQ"
        ⟨[], [Ym.HEADERS, ymDupRow], []⟩).1 = .ok false ∧
    Ev.upload ∈ (Ym.process_video ⟨true, "PL1"⟩ (ymHappyWorld ymInfo0) "dQw4w9WgXcQ"
        ⟨[], [Ym.HEADERS, ymDupRow], []⟩).2.events ∧
    (Ym.process_video ⟨true, "PL1"⟩ (ymHappyWorld ymInfo0) "dQw4w9WgXcQ"
        ⟨[], [Ym.HEADERS, ymDupRow], []⟩).2.sheet = [Ym.HEADERS, ymDupRow] := by
  decide

set_option maxHeartbeats 2000000

/-- C1 (amended): for every video whose id already appears in column 7 of
the tracking sheet, a fully successful `YouTubeManager.process_video` run
returns the AlreadyExists outcome (`False`) and does not append a second
row - but only after the upload has been invoked, because the duplicate
scan happens inside the spreadsheet-update step.  (The app pipeline
performs no duplicate scan at all.) -/
theorem c1_duplicate_checked_after_upload (i : Ym.Info)
    (rows : List (List String)) (pl : String) (hid : i.id ≠ "")
    (hdup : (Ym.colValues (Ym.HEADERS :: rows) 7).contains i.id = true) :
    ((Ym.process_video ⟨true, pl⟩ (ymHappyWorld i) "dQw4w9WgXcQ"
        ⟨[], Ym.HEADERS :: rows, []⟩).1 = .ok false) ∧
    ((Ym.process_video ⟨true, pl⟩ (ymHappyWorld i) "dQw4w9WgXcQ"
        ⟨[], Ym.HEADERS :: rows, []⟩).2.sheet = Ym.HEADERS :: rows) ∧
    Ev.upload ∈ (Ym.process_video ⟨true, pl⟩ (ymHappyWorld i) "dQw4w9WgXcQ"
        ⟨[], Ym.HEADERS :: rows, []⟩).2.events := by
  have hv : Ym.validate_youtube_url "dQw4w9WgXcQ" = .ok "dQw4w9WgXcQ" := by decide
  have h1 : (("abc123" : String) == "") = false := by decide
  simp only [Ym.process_video, hv, ymHappyWorld, Ym.get_or_create_sheet,
    Ym.get_video_data, Ym.download_video, Ym.upload_to_drive,
    Ym.update_spreadsheet, Ym.cleanupFinally, logEv, addFile, removeFile,
    fileExists, fileSize, List.head?, beq_self_eq_true, if_true, if_neg hid,
    List.any_cons, List.any_nil, Bool.or_false, Bool.true_or, Bool.or_true,
    Bool.not_true, Bool.not_false, Bool.false_and, Bool.true_and,
    Bool.and_false, Bool.and_true, List.find?, List.filter, bne_self_eq_false,
    if_false, List.nil_append, List.append_nil, Bool.false_eq_true,
    Option.map_some, Option.map_some', Option.getD_some, List.set, List.getD,
    List.get?, List.getD_cons_succ, List.getD_cons_zero,
    List.singleton_append, List.cons_append, h1, hdup]
  refine ⟨trivial, trivial, ?_⟩
  simp

/-- C1 witness: the amended theorem applied at the `ymInfo0`/`ymDupRow`
fixtures. -/
theorem c1_witness :
    ymInfo0.id ≠ "" ∧
    (Ym.colValues (Ym.HEADERS :: [ymDupRow]) 7).contains ymInfo0.id = true ∧
    (((Ym.process_video ⟨true, "PL9"⟩ (ymHappyWorld ymInfo0) "dQw4w9WgXcQ"
        ⟨[], Ym.HEADERS :: [ymDupRow], []⟩).1 = .ok false) ∧
      ((Ym.process_video ⟨true, "PL9"⟩ (ymHappyWorld ymInfo0) "dQw4w9WgXcQ"
          ⟨[], Ym.HEADERS :: [ymDupRow], []⟩).2.sheet = Ym.HEADERS :: [ymDupRow]) ∧
      Ev.upload ∈ (Ym.process_video ⟨true, "PL9"⟩ (ymHappyWorld ymInfo0) "dQw4w9WgXcQ"
          ⟨[], Ym.HEADERS :: [ymDupRow], []⟩).2.events) :=
  ⟨by decide, by decide,
    c1_duplicate_checked_after_upload ymInfo0 [ymDupRow] "PL9" (by decide) (by decide)⟩

/-! ### Claim C2: the Pending row is pre-registered before download -/

/-- C2 counterexample: in `YouTubeManager.process_video` no tracking row is
appended before the download - the row is only appended by
`update_spreadsheet` after the upload - so a download failure leaves NO row
in the tracking store (and no append event in the trace). -/
theorem c2_counterexample :
    (Ym.process_video ⟨true, "PL1"⟩ (ymNoFileWorld ymInfo0) "dQw4w9WgXcQ" ymSt0).2.sheet
        = [Ym.HEADERS] ∧
    Ev.append ∉ (Ym.process_video ⟨true, "PL1"⟩ (ymNoFileWorld ymInfo0)
        "dQw4w9WgXcQ" ymSt0).2.events ∧
    (Ym.process_video ⟨true, "PL1"⟩ (ymNoFileWorld ymInfo0) "dQw4w9WgXcQ" ymSt0).1
        = .error (.dataError "Video download failed: Download completed but file was not created") := by
  decide

/-- C2 (amended): in the app pipeline (`VideoProcessor.process_video`) the
"Pending" tracking row is appended after the metadata fetch and strictly
before the download is started (the trace is fetch, append, download), so a
failing download leaves the Pending row in the tracking store; the
`youtube_manager` pipeline instead appends its row only after the upload,
so a download failure there leaves no row (see the counterexample). -/
theorem c2_pending_row_before_download (i : App.Info) (cfg : App.Cfg)
    (sheet0 : List (List String))
    (h1 : i.entries = false) (h2 : i.isLive = false) (h3 : i.ageLimit = 0) :
    ((App.process_video cfg (appNoFileWorld i) "dQw4w9WgXcQ" ⟨[], sheet0, []⟩).1
        = .error (.processingError "Processing error: Download completed but file not found")) ∧
    ((App.process_video cfg (appNoFileWorld i) "dQw4w9WgXcQ" ⟨[], sheet0, []⟩).2.sheet
        = sheet0 ++ [[i.title, i.description,
            (if i.tags = [] then "" else String.intercalate ", " i.tags),
            (if i.categories = [] then "" else i.categories.headD ""), "",
            cfg.playlistId.getD "", i.thumbnail, "2024-01-01", "Pending", "Pending"]]) ∧
    ((App.process_video cfg (appNoFileWorld i) "dQw4w9WgXcQ" ⟨[], sheet0, []⟩).2.events
        = [Ev.download, Ev.append, Ev.fetch]) := by
  have hv : App.validate_youtube_url "dQw4w9WgXcQ" = .ok "dQw4w9WgXcQ" := by decide
  simp only [App.process_video, App.process_video_core, hv, appNoFileWorld,
    App.get_video_info, App.add_video, App.download_video, logEv, addFile,
    fileExists, List.any_nil, Bool.not_false, Bool.not_true, if_neg,
    if_false, if_true, h1, h2, h3, Nat.lt_irrefl, App.Err.msg,
    Bool.false_eq_true, List.nil_append, List.append_nil]
  exact ⟨by decide, trivial, trivial⟩

/-- C2 witness: the amended theorem applied at the `appInfo0` fixture. -/
theorem c2_witness :
    appInfo0.entries = false ∧ appInfo0.isLive = false ∧ appInfo0.ageLimit = 0 ∧
    (((App.process_video ⟨true, true, some "PL1"⟩ (appNoFileWorld appInfo0)
          "dQw4w9WgXcQ" ⟨[], [App.HEADERS], []⟩).1
        = .error (.processingError "Processing error: Download completed but file not found")) ∧
      ((App.process_video ⟨true, true, some "PL1"⟩ (appNoFileWorld appInfo0)
          "dQw4w9WgXcQ" ⟨[], [App.HEADERS], []⟩).2.sheet
        = [App.HEADERS] ++ [[appInfo0.title, appInfo0.description,
            (if appInfo0.tags = [] then "" else String.intercalate ", " appInfo0.tags),
            (if appInfo0.categories = [] then "" else appInfo0.categories.headD ""), "",
            (some "PL1" : Option String).getD "", appInfo0.thumbnail, "2024-01-01",
            "Pending", "Pending"]]) ∧
      ((App.process_video ⟨true, true, some "PL1"⟩ (appNoFileWorld appInfo0)
          "dQw4w9WgXcQ" ⟨[], [App.HEADERS], []⟩).2.events
        = [Ev.download, Ev.append, Ev.fetch])) :=
  ⟨rfl, rfl, rfl,
    c2_pending_row_before_download appInfo0 ⟨true, true, some "PL1"⟩ [App.HEADERS]
      rfl rfl rfl⟩

/-! ### Claim C3: error taxonomy at the pipeline boundary -/

/-- C3 counterexample: the app pipeline does NOT propagate the extractor
`ValidationError` unchanged - its catch-all `except Exception` re-wraps it
into `ProcessingError("Processing error: ...")`. -/
theorem c3_counterexample :
    (App.process_video ⟨true, true, some "PL1"⟩ (appHappyWorld appInfo0) "" appSt0).1
        = .error (.processingError "Processing error: Could not extract valid video ID from URL") ∧
    App.Err.processingError "Processing error: Could not extract valid video ID from URL"
        ≠ App.Err.validationError "Could not extract valid video ID from URL" := by
  decide

/-- C3 (amended): every top-level failure of `VideoProcessor.process_video`
is a taxonomy kind - always the catch-all `ProcessingError` wrapper, so no
collaborator-native exception escapes, but also no `ValidationError`
escapes unchanged; `YouTubeManager.process_video`, whose handler re-raises
with a bare `raise`, DOES propagate the extractor `ValidationError`
unchanged. -/
theorem c3_taxonomy_boundary (cfg : App.Cfg) (w : App.World) (url : String)
    (st : PState) (ycfg : Ym.Cfg) (yw : Ym.World) (yst : PState) :
    ((∃ u, (App.process_video cfg w url st).1 = .ok u) ∨
      (∃ m, (App.process_video cfg w url st).1 = .error (.processingError m))) ∧
    (∀ m, Ym.validate_youtube_url url = .error m →
      (Ym.process_video ycfg yw url yst).1 = .error (.validationError m)) := by
  constructor
  · rcases h : App.process_video_core cfg w url st with ⟨r, st'⟩
    cases r with
    | ok u =>
      left
      exact ⟨u, by simp [App.process_video, h]⟩
    | error e =>
      right
      exact ⟨"Processing error: " ++ e.msg, by simp [App.process_video, h]⟩
  · intro m hm
    unfold Ym.process_video
    rw [hm]

/-- C3 witness: the amended theorem applied at the empty input, whose
validation failure propagates unchanged through the `Ym` pipeline. -/
theorem c3_witness :
    Ym.validate_youtube_url "" = .error "URL cannot be empty" ∧
    (Ym.process_video ⟨true, "PL1"⟩ (ymHappyWorld ymInfo0) "" ymSt0).1
        = .error (.validationError "URL cannot be empty") :=
  ⟨by decide,
    (c3_taxonomy_boundary ⟨true, true, some "PL1"⟩ (appHappyWorld appInfo0) ""
        appSt0 ⟨true, "PL1"⟩ (ymHappyWorld ymInfo0) ymSt0).2
      "URL cannot be empty" (by decide)⟩

/-! ### Claim C6: zero-byte and missing download results -/

/-- C6 counterexample: `YouTubeManager.download_video` performs NO
zero-size check - a zero-byte downloaded file is renamed (promoted) and
returned as a success. -/
theorem c6_counterexample :
    (Ym.download_video ⟨true, "PL1"⟩ (ymZeroWorld ymInfo0) ymSt0).1
        = .ok "Videos/My Video_dQw4w9WgXcQ.mp4" ∧
    Ev.rename ∈ (Ym.download_video ⟨true, "PL1"⟩ (ymZeroWorld ymInfo0) ymSt0).2.events := by
  decide

/-- C6 (amended): in the app downloader (`YouTubeDownloader.download_video`)
a zero-byte temporary file fails with `DownloadError("Downloaded file is
empty")` and the temp file is not renamed to the processed location (the
final state holds only the temp file and no rename event), and a
reported-successful download with no output file fails with
`DownloadError("Download completed but file not found")`; the
`youtube_manager` downloader fails on the missing file but has no
zero-size check (see the counterexample).  At the pipeline boundary the
processor re-wraps these as `ProcessingError` (claim C3). -/
theorem c6_zero_byte_not_promoted (m : App.Meta) (w : App.World)
    (sheet0 : List (List String)) (evs0 : List Ev)
    (hc : w.dlCreates = true) (hz : w.dlSize = 0) :
    (App.download_video w m ⟨[], sheet0, evs0⟩
      = (.error (.downloadError "Downloaded file is empty"),
         ⟨[(App.get_video_path m.id m.title App.VIDEO_DIR true, 0)], sheet0,
          Ev.download :: evs0⟩)) ∧
    (∀ w2 : App.World, w2.dlCreates = false →
      App.download_video w2 m ⟨[], sheet0, evs0⟩
        = (.error (.downloadError "Download completed but file not found"),
           ⟨[], sheet0, Ev.download :: evs0⟩)) := by
  constructor
  · simp only [App.download_video, logEv, addFile, fileExists, fileSize, hc,
      hz, if_true, List.nil_append, List.any_cons, List.any_nil,
      beq_self_eq_true, Bool.or_false, Bool.true_or, List.find?,
      Option.map_some, Option.map_some', Option.getD_some, Bool.not_true,
      Bool.false_eq_true, if_false]
  · intro w2 h2
    simp only [App.download_video, logEv, addFile, fileExists, fileSize, h2,
      List.any_nil, Bool.not_false, if_true, if_false, Bool.false_eq_true]

/-- C6 witness: the amended theorem applied at a concrete zero-byte world
and a concrete no-file world. -/
theorem c6_witness :
    (⟨some appInfo0, true, 0, some "abc123", "2024-01-01"⟩ : App.World).dlCreates = true ∧
    (⟨some appInfo0, true, 0, some "abc123", "2024-01-01"⟩ : App.World).dlSize = 0 ∧
    (appNoFileWorld appInfo0).dlCreates = false ∧
    App.download_video ⟨some appInfo0, true, 0, some "abc123", "2024-01-01"⟩
        ⟨"dQw4w9WgXcQ", "My Video", "d", "t", "c", "th"⟩ ⟨[], [App.HEADERS], []⟩
      = (.error (.downloadError "Downloaded file is empty"),
         ⟨[(App.get_video_path "dQw4w9WgXcQ" "My Video" App.VIDEO_DIR true, 0)],
          [App.HEADERS], [Ev.download]⟩) ∧
    App.download_video (appNoFileWorld appInfo0)
        ⟨"dQw4w9WgXcQ", "My Video", "d", "t", "c", "th"⟩ ⟨[], [App.HEADERS], []⟩
      = (.error (.downloadError "Download completed but file not found"),
         ⟨[], [App.HEADERS], [Ev.download]⟩) :=
  ⟨rfl, rfl, rfl,
    (c6_zero_byte_not_promoted ⟨"dQw4w9WgXcQ", "My Video", "d", "t", "c", "th"⟩
        ⟨some appInfo0, true, 0, some "abc123", "2024-01-01"⟩ [App.HEADERS] []
        rfl rfl).1,
    (c6_zero_byte_not_promoted ⟨"dQw4w9WgXcQ", "My Video", "d", "t", "c", "th"⟩
        ⟨some appInfo0, true, 0, some "abc123", "2024-01-01"⟩ [App.HEADERS] []
        rfl rfl).2 (appNoFileWorld appInfo0) rfl⟩

/-! ### Claim C7: playlists, live streams, age-restricted content -/

/-- C7 (confirmed): when the metadata reports a playlist (`'entries' in
info`), a live stream, or an age restriction, `VideoProcessor.process_video`
fails before anything else happens: no tracking row is appended, no file is
touched, and the only event is the metadata fetch.  The code realizes the
taxonomy kind UnsupportedContent as `DownloadError` with one of these three
dedicated messages, which the top-level handler wraps into
`ProcessingError` preserving the message. -/
theorem c7_unsupported_content_rejected (i : App.Info) (cfg : App.Cfg)
    (dc : Bool) (ds : Nat) (uid : Option String) (today : String)
    (files0 : List (String × Nat)) (sheet0 : List (List String)) (evs0 : List Ev) :
    (i.entries = true →
      App.process_video cfg ⟨some i, dc, ds, uid, today⟩ "dQw4w9WgXcQ" ⟨files0, sheet0, evs0⟩
        = (.error (.processingError
            "Processing error: URL appears to be a playlist. Please provide a single video URL."),
           ⟨files0, sheet0, Ev.fetch :: evs0⟩)) ∧
    (i.entries = false → i.isLive = true →
      App.process_video cfg ⟨some i, dc, ds, uid, today⟩ "dQw4w9WgXcQ" ⟨files0, sheet0, evs0⟩
        = (.error (.processingError "Processing error: Live streams are not supported"),
           ⟨files0, sheet0, Ev.fetch :: evs0⟩)) ∧
    (i.entries = false → i.isLive = false → 0 < i.ageLimit →
      App.process_video cfg ⟨some i, dc, ds, uid, today⟩ "dQw4w9WgXcQ" ⟨files0, sheet0, evs0⟩
        = (.error (.processingError "Processing error: Age-restricted videos are not supported"),
           ⟨files0, sheet0, Ev.fetch :: evs0⟩)) := by
  have hv : App.validate_youtube_url "dQw4w9WgXcQ" = .ok "dQw4w9WgXcQ" := by decide
  refine ⟨fun h1 => ?_, fun h1 h2 => ?_, fun h1 h2 h3 => ?_⟩
  · simp only [App.process_video, App.process_video_core, hv,
      App.get_video_info, logEv, h1, if_true, App.Err.msg, Prod.mk.injEq]
    exact ⟨by decide, trivial⟩
  · simp only [App.process_video, App.process_video_core, hv,
      App.get_video_info, logEv, h1, h2, if_true, if_false,
      Bool.false_eq_true, App.Err.msg, Prod.mk.injEq]
    exact ⟨by decide, trivial⟩
  · simp only [App.process_video, App.process_video_core, hv,
      App.get_video_info, logEv, h1, h2, if_pos h3, if_false,
      Bool.false_eq_true, App.Err.msg, Prod.mk.injEq]
    exact ⟨by decide, trivial⟩

/-- C7 witness: the amended theorem applied at a live-stream metadata
fixture (the spec scenario `is_live = true`). -/
theorem c7_witness :
    (⟨false, true, 0, "x", "Live", "d", [], [], ""⟩ : App.Info).entries = false ∧
    (⟨false, true, 0, "x", "Live", "d", [], [], ""⟩ : App.Info).isLive = true ∧
    App.process_video ⟨true, true, some "PL1"⟩
        ⟨some ⟨false, true, 0, "x", "Live", "d", [], [], ""⟩, true, 5, some "a", "2024-01-01"⟩
        "dQw4w9WgXcQ" ⟨[], [App.HEADERS], []⟩
      = (.error (.processingError "Processing error: Live streams are not supported"),
         ⟨[], [App.HEADERS], [Ev.fetch]⟩) :=
  ⟨rfl, rfl,
    (c7_unsupported_content_rejected ⟨false, true, 0, "x", "Live", "d", [], [], ""⟩
        ⟨true, true, some "PL1"⟩ true 5 (some "a") "2024-01-01" [] [App.HEADERS] []).2.1
      rfl rfl⟩

/-! ### Claim C8: the keep-files flag -/

/-- C8 (code bug): `config/config.py` documents `KEEP_FILE = True` as
keeping downloaded files, and the spec says the file remains on disk after
`Processed` when keep-files is true - but the `finally` block of
`YouTubeManager.process_video` unconditionally deletes `video_path`, so
after a fully successful run with `KEEP_FILE = True` the downloaded file is
gone (only the incidental `backup_` copy survives): the unlink event is in
the trace and the file is absent from the final state. -/
theorem c8_keep_file_ignored_by_finally :
    (Ym.process_video ⟨true, "PL1"⟩ (ymHappyWorld ymInfo0) "dQw4w9WgXcQ" ymSt0).1
        = .ok true ∧
    ((Ym.process_video ⟨true, "PL1"⟩ (ymHappyWorld ymInfo0) "dQw4w9WgXcQ" ymSt0).2.files.map
        Prod.fst).contains "Videos/My Video_dQw4w9WgXcQ.mp4" = false ∧
    Ev.unlink ∈ (Ym.process_video ⟨true, "PL1"⟩ (ymHappyWorld ymInfo0)
        "dQw4w9WgXcQ" ymSt0).2.events := by
  decide

/-! ### Claim C10: upload-to-remote disabled -/

theorem append_ne_empty_left (a b : String) (h : a ≠ "") : (a ++ b) ≠ "" := by
  intro he
  apply h
  obtain ⟨da⟩ := a
  obtain ⟨db⟩ := b
  cases da with
  | nil => rfl
  | cons c t =>
    exfalso
    have h2 : ((⟨c :: t⟩ : String) ++ (⟨db⟩ : String)).data = "".data :=
      congrArg String.data he
    simp [String.append] at h2

/-- C10 (confirmed): with `UPLOAD_TO_DRIVE` false and every other
collaborator succeeding, `VideoProcessor.process_video` completes without
ever calling upload, writes the LOCAL FILE PATH into the Drive File ID
column of the tracking row, and leaves the Download Status cell at
"Pending", because the status string it passes ("Completed Locally") is
not the literal "Completed" that `update_video_status` requires before it
touches the status cell. -/
theorem c10_upload_disabled_writes_local_path (i : App.Info) (kf : Bool)
    (pl : Option String)
    (h1 : i.entries = false) (h2 : i.isLive = false) (h3 : i.ageLimit = 0)
    (h4 : App.HEADERS.any (fun cell => cell == i.title) = false) :
    ((App.process_video ⟨kf, false, pl⟩ (appHappyWorld i) "dQw4w9WgXcQ"
        ⟨[], [App.HEADERS], []⟩).1 = .ok ()) ∧
    (Ev.upload ∉ (App.process_video ⟨kf, false, pl⟩ (appHappyWorld i) "dQw4w9WgXcQ"
        ⟨[], [App.HEADERS], []⟩).2.events) ∧
    ((App.process_video ⟨kf, false, pl⟩ (appHappyWorld i) "dQw4w9WgXcQ"
        ⟨[], [App.HEADERS], []⟩).2.sheet
      = [App.HEADERS,
         [i.title, i.description,
          (if i.tags = [] then "" else String.intercalate ", " i.tags),
          (if i.categories = [] then "" else i.categories.headD ""),
          App.get_video_path i.id i.title App.PROCESSED_DIR false,
          pl.getD "", i.thumbnail, "2024-01-01", "Pending", "Pending"]]) := by
  have hv : App.validate_youtube_url "dQw4w9WgXcQ" = .ok "dQw4w9WgXcQ" := by decide
  have h5 : (("Completed Locally" : String) == "Completed") = false := by decide
  have h6 : (((5 : Nat)) == 0) = false := by decide
  have hne : (App.get_video_path i.id i.title App.PROCESSED_DIR false != "") = true := by
    have hne2 : (App.PROCESSED_DIR ++ "/")
        ++ (App.sanitize_filename i.title ++ "_" ++ i.id ++ ".mp4") ≠ "" :=
      append_ne_empty_left _ _ (by decide)
    simp only [App.get_video_path, Bool.false_eq_true, if_false, bne_iff_ne, ne_eq]
    exact hne2
  simp only [App.process_video, App.process_video_core, hv, appHappyWorld,
    App.get_video_info, App.add_video, App.download_video, App.update_video_status,
    App.findRowByValue, setCell, logEv, addFile, removeFile, fileExists, fileSize,
    h1, h2, h3, h4, h5, hne, Nat.lt_irrefl, if_true, if_false, Bool.false_eq_true,
    Bool.not_true, Bool.not_false, List.nil_append, List.append_nil,
    List.any_cons, List.any_nil, beq_self_eq_true, Bool.or_false, Bool.true_or,
    List.find?, Option.map_some, Option.map_some', Option.getD_some,
    List.findIdx?_cons, List.findIdx?_nil, List.set, List.getD, List.get?,
    List.getD_cons_succ, List.getD_cons_zero, List.singleton_append,
    List.cons_append, h6, List.filter_cons, List.filter_nil, bne_self_eq_false]
  exact ⟨trivial, by decide, trivial⟩

/-- C10 witness: the theorem applied at the `appInfo0` fixture. -/
theorem c10_witness :
    appInfo0.entries = false ∧ appInfo0.isLive = false ∧ appInfo0.ageLimit = 0 ∧
    App.HEADERS.any (fun cell => cell == appInfo0.title) = false ∧
    (((App.process_video ⟨true, false, some "PL1"⟩ (appHappyWorld appInfo0)
          "dQw4w9WgXcQ" ⟨[], [App.HEADERS], []⟩).1 = .ok ()) ∧
      (Ev.upload ∉ (App.process_video ⟨true, false, some "PL1"⟩ (appHappyWorld appInfo0)
          "dQw4w9WgXcQ" ⟨[], [App.HEADERS], []⟩).2.events) ∧
      ((App.process_video ⟨true, false, some "PL1"⟩ (appHappyWorld appInfo0)
          "dQw4w9WgXcQ" ⟨[], [App.HEADERS], []⟩).2.sheet
        = [App.HEADERS,
           [appInfo0.title, appInfo0.description,
            (if appInfo0.tags = [] then "" else String.intercalate ", " appInfo0.tags),
            (if appInfo0.categories = [] then "" else appInfo0.categories.headD ""),
            App.get_video_path appInfo0.id appInfo0.title App.PROCESSED_DIR false,
            (some "PL1" : Option String).getD "", appInfo0.thumbnail, "2024-01-01",
            "Pending", "Pending"]])) :=
  ⟨rfl, rfl, rfl, by decide,
    c10_upload_disabled_writes_local_path appInfo0 true (some "PL1")
      rfl rfl rfl (by decide)⟩
